import Mathlib

/-!
Verification of the breadboard real-time stock pipeline
(backend/processor.py, backend/services/alert_service.py, backend/main.py,
yahoo_websocket_client.py) against its natural-language specification.

Python floats are modelled as exact rationals (ℚ), Python ints as ℤ,
Python dicts of decoded messages as association lists over a small
dynamic-value type.  Fallible operations (float()/int() conversions,
protobuf decoding, storage inserts) return Except/Option or are
parameterised by an explicit success predicate.
-/

set_option autoImplicit false

/-- A dynamic Python value as it occurs in a decoded tick dict:
a string, a float (exact rational), or an int. -/
inductive PyVal where
  | str (s : String)
  | num (q : ℚ)
  | int (n : ℤ)
deriving DecidableEq, Repr

/-- A decoded message dict: association list from string keys to values. -/
abbrev Message := List (String × PyVal)

/-- `dict.get(k, dflt)`: value of the first binding of `k`, else the default. -/
def Message.get (m : Message) (k : String) (dflt : PyVal) : PyVal :=
  match m.find? (fun p => p.1 == k) with
  | some p => p.2
  | none => dflt

/-- Digit-list value, most significant first (helper for numeric parsing). -/
def digitsVal (cs : List Char) : ℕ :=
  cs.foldl (fun n c => n * 10 + (c.toNat - 48)) 0

/-- Parse a non-empty all-digit character list. -/
def parseDigits : List Char → Option ℕ
  | [] => none
  | cs => if cs.all Char.isDigit then some (digitsVal cs) else none

/-- Parse an unsigned decimal literal `digits[.digits]` (Python `float`
accepts further forms — exponents, inf/nan, surrounding whitespace — which
never occur in this pipeline's data and are modelled as failures). -/
def parseDecimalCore (cs : List Char) : Option ℚ :=
  match cs.splitOn '.' with
  | [ds] => (parseDigits ds).map fun n => (n : ℚ)
  | [ds, fs] =>
    if ds.isEmpty && fs.isEmpty then none
    else if ds.all Char.isDigit && fs.all Char.isDigit then
      some ((digitsVal ds : ℚ) + (digitsVal fs : ℚ) / (10 ^ fs.length))
    else none
  | _ => none

/-- Python `float(s)` on a string: optional sign then a decimal literal. -/
def parseDecimal (s : String) : Option ℚ :=
  match s.data with
  | [] => none
  | '-' :: rest => (parseDecimalCore rest).map Neg.neg
  | '+' :: rest => parseDecimalCore rest
  | cs => parseDecimalCore cs

/-- Python `int(s)` on a string: optional sign then digits
(`int("3.5")` raises in Python and is `none` here). -/
def parseIntStr (s : String) : Option ℤ :=
  match s.data with
  | [] => none
  | '-' :: rest => (parseDigits rest).map fun n => -(n : ℤ)
  | '+' :: rest => (parseDigits rest).map fun n => (n : ℤ)
  | cs => (parseDigits cs).map fun n => (n : ℤ)

/-- Python `float(x)`: floats and ints convert; strings are parsed,
raising (`Except.error`) on non-numeric text. -/
def pyFloat : PyVal → Except String ℚ
  | .num q => .ok q
  | .int n => .ok (n : ℚ)
  | .str s =>
    match parseDecimal s with
    | some q => .ok q
    | none => .error ("could not convert string to float: " ++ s)

/-- Truncation toward zero, as Python `int(float)` does. -/
def pytrunc (q : ℚ) : ℤ := q.num.tdiv q.den

/-- Python `int(x)`: ints pass through, floats truncate toward zero,
strings are parsed as integers, raising on non-integer text. -/
def pyInt : PyVal → Except String ℤ
  | .int n => .ok n
  | .num q => .ok (pytrunc q)
  | .str s =>
    match parseIntStr s with
    | some n => .ok n
    | none => .error ("invalid literal for int: " ++ s)

/-- Python `str(x)` as used by f-string interpolation of a symbol.
(Symbols are strings in practice; the float repr is abbreviated.) -/
def pyStr : PyVal → String
  | .str s => s
  | .int n => toString n
  | .num q => toString q

/-- Floor of a rational, computed by floor division of numerator by
denominator. -/
def ratFloor (q : ℚ) : ℤ := q.num.fdiv q.den

/-- Round to the nearest integer, ties to even (Python's `:.2f` rounding
rule, applied here to the exact rational value). -/
def roundHalfEven (q : ℚ) : ℤ :=
  let f := ratFloor q
  let frac := q - f
  if frac < 1 / 2 then f
  else if 1 / 2 < frac then f + 1
  else if f % 2 = 0 then f else f + 1

/-- Python `f"{q:.2f}"`: fixed two-decimal rendering of a rational. -/
def formatFixed2 (q : ℚ) : String :=
  let n := roundHalfEven (q * 100)
  let sign := if n < 0 ∨ (n = 0 ∧ q < 0) then "-" else ""
  let a := n.natAbs
  let ip := a / 100
  let fp := a % 100
  sign ++ toString ip ++ "." ++ (if fp < 10 then "0" else "") ++ toString fp

/-! ## Batch Processor state (backend/processor.py, `StreamProcessor`) -/

/-- One record of the in-memory batch, as built in
`StreamProcessor._process_message`.  `timestamp` is the epoch time in
seconds (`datetime.fromtimestamp(int(timestamp_ms) / 1000)` modelled by
its numeric argument); `symbol` holds the raw `message["id"]` value
(the source applies no conversion to it). -/
structure Record where
  timestamp : ℚ
  symbol : PyVal
  price : ℚ
  volume : ℤ
  change_percent : ℚ
deriving DecidableEq, Repr

/-- The `alert_data` dict built in `_process_message`.  The
`timestamp.isoformat()` string is modelled by the numeric timestamp. -/
structure AlertData where
  type : String
  symbol : PyVal
  price : ℚ
  change_percent : ℚ
  timestamp : ℚ
  message : String
deriving DecidableEq, Repr

/-- The `StreamProcessor` state.  Callbacks are identified by natural
numbers (Python object identity); the callable set is a finite set as in
the source (`self.alert_callbacks: Set[callable]`). -/
structure StreamProcessor where
  batch_size : ℕ := 100
  batch_timeout : ℚ := 1
  alert_threshold : ℚ := -5
  batch : List Record := []
  alert_callbacks : Finset ℕ := ∅
  is_running : Bool := false
deriving DecidableEq

/-- `StreamProcessor.register_alert_callback`: `self.alert_callbacks.add(callback)`. -/
def StreamProcessor.register_alert_callback (sp : StreamProcessor) (c : ℕ) : StreamProcessor :=
  { sp with alert_callbacks := insert c sp.alert_callbacks }

/-- `StreamProcessor.unregister_alert_callback`: `self.alert_callbacks.discard(callback)`
(no error when absent). -/
def StreamProcessor.unregister_alert_callback (sp : StreamProcessor) (c : ℕ) : StreamProcessor :=
  { sp with alert_callbacks := sp.alert_callbacks.erase c }

/-- Behaviour of the registered callables: callback `c` applied to an
alert either returns (`.ok`) or raises (`.error`). -/
abbrev CallbackEnv := ℕ → AlertData → Except String Unit

/-- The loop body of `_trigger_alert` over the callbacks in iteration
order: each callback is invoked; an exception it raises is caught and
recorded (`logger.error`) and the loop continues with the next one. -/
def triggerAlertList (env : CallbackEnv) (a : AlertData) : List ℕ → List (ℕ × Except String Unit)
  | [] => []
  | c :: rest => (c, env c a) :: triggerAlertList env a rest

/-- `StreamProcessor._trigger_alert`: iterate the callback set (in a
canonical enumeration of the Python set) and invoke every callback,
isolating per-callback exceptions.  Returns the invocation trace. -/
def StreamProcessor.trigger_alert (sp : StreamProcessor) (env : CallbackEnv)
    (a : AlertData) : List (ℕ × Except String Unit) :=
  triggerAlertList env a (sp.alert_callbacks.sort (· ≤ ·))

/-- The field-extraction prefix of `_process_message` (everything in the
`try` block before `self.batch.append`): any failing conversion raises,
short-circuiting the rest.  `now_ms` models
`str(int(datetime.now().timestamp() * 1000))`, the default for `"time"`. -/
def parseRecord (now_ms : ℤ) (msg : Message) : Except String Record := do
  let symbol := msg.get "id" (.str "UNKNOWN")
  let price ← pyFloat (msg.get "price" (.num 0))
  let volume ← pyInt (msg.get "volume" (.int 0))
  let change_percent ← pyFloat (msg.get "change_percent" (.num 0))
  let tms ← pyInt (msg.get "time" (.str (toString now_ms)))
  .ok ⟨(tms : ℚ) / 1000, symbol, price, volume, change_percent⟩

/-- The `alert_data` dict built when the alert condition fires. -/
def mkAlertData (r : Record) : AlertData :=
  ⟨"price_drop", r.symbol, r.price, r.change_percent, r.timestamp,
    "Alert: " ++ pyStr r.symbol ++ " dropped " ++ formatFixed2 r.change_percent ++ "%"⟩

deriving instance DecidableEq for Except

/-- Result of `_process_message`: the new processor state, the alerts
generated (zero or one), and the callback invocation trace. -/
structure ProcResult where
  sp : StreamProcessor
  alerts : List AlertData
  cbTrace : List (ℕ × Except String Unit)
deriving DecidableEq

/-- `StreamProcessor._process_message`: extract the fields, append the
record to the batch, and when `change_percent <= self.alert_threshold`
build the alert and trigger the callbacks.  Any exception in the body is
caught by the outer handler, which logs it and leaves the state as it
was (all conversions precede the append, and `_trigger_alert` catches
callback exceptions internally). -/
def processMessage (env : CallbackEnv) (now_ms : ℤ) (sp : StreamProcessor)
    (msg : Message) : ProcResult :=
  match parseRecord now_ms msg with
  | .error _ => ⟨sp, [], []⟩
  | .ok r =>
    let sp1 := { sp with batch := sp.batch ++ [r] }
    if r.change_percent ≤ sp.alert_threshold then
      let a := mkAlertData r
      ⟨sp1, [a], sp1.trigger_alert env a⟩
    else
      ⟨sp1, [], []⟩

/-- Outcome of one `_flush_batch` call: batch empty (early return, no
insert attempted), insert succeeded (batch cleared), or insert raised
(error logged, batch kept). -/
inductive FlushResult where
  | noop
  | flushed (records : List Record)
  | failed (e : String)
deriving DecidableEq, Repr

/-- `StreamProcessor._flush_batch`, with the storage collaborator
(`db_client.insert_stock_prices_batch`) modelled by the success
predicate `insertOk`.  On success `self.batch = []`; on an exception the
error is logged and the batch is kept for retry on the next iteration
(the source's own comment). -/
def flushBatch (insertOk : List Record → Bool) (sp : StreamProcessor) :
    StreamProcessor × FlushResult :=
  if sp.batch.isEmpty then (sp, .noop)
  else if insertOk sp.batch then ({ sp with batch := [] }, .flushed sp.batch)
  else (sp, .failed "insert error")

/-- `StreamProcessor.stop`: clear the run flag, then one final
`_flush_batch` of whatever remains. -/
def StreamProcessor.stop (sp : StreamProcessor) (insertOk : List Record → Bool) :
    StreamProcessor × FlushResult :=
  flushBatch insertOk { sp with is_running := false }

/-- Number of storage insert attempts a flush outcome represents. -/
def FlushResult.attempts : FlushResult → ℕ
  | .noop => 0
  | .flushed _ => 1
  | .failed _ => 1

/-! ## The `run` loop (backend/processor.py, `StreamProcessor.run`) -/

/-- Loop-carried state of `run`: the processor plus `last_flush`. -/
structure LoopState where
  sp : StreamProcessor
  last_flush : ℚ
deriving DecidableEq

/-- The message-wait step of one `run` iteration: on `some msg` the
message is processed, on `none` (`asyncio.TimeoutError`) nothing
changes. -/
def procEvent (env : CallbackEnv) (now_ms : ℤ) (sp : StreamProcessor) :
    Option Message → ProcResult
  | some m => processMessage env now_ms sp m
  | none => ⟨sp, [], []⟩

/-- One iteration of the `run` loop.  `ev` is the outcome of the
timed queue wait (`some msg`, or `none` for `asyncio.TimeoutError`);
`t` is the clock reading `current_time` of this iteration.  After the
optional message processing the dual flush condition is checked:
`len(self.batch) >= self.batch_size` or
`current_time - last_flush >= self.batch_timeout`; if either holds,
`_flush_batch` is issued and `last_flush` is reset. -/
def runStep (insertOk : List Record → Bool) (env : CallbackEnv) (now_ms : ℤ)
    (st : LoopState) (ev : Option Message) (t : ℚ) :
    LoopState × Option FlushResult × List AlertData :=
  let pr := procEvent env now_ms st.sp ev
  if pr.sp.batch_size ≤ pr.sp.batch.length ∨ pr.sp.batch_timeout ≤ t - st.last_flush then
    let fb := flushBatch insertOk pr.sp
    (⟨fb.1, t⟩, some fb.2, pr.alerts)
  else
    (⟨pr.sp, st.last_flush⟩, none, pr.alerts)

/-- The `run` loop over a finite schedule of iterations (each a queue
event paired with that iteration's clock reading). -/
def runLoop (insertOk : List Record → Bool) (env : CallbackEnv) (now_ms : ℤ) :
    LoopState → List (Option Message × ℚ) → LoopState
  | st, [] => st
  | st, (ev, t) :: rest =>
    runLoop insertOk env now_ms (runStep insertOk env now_ms st ev t).1 rest

/-! ## Alert Engine (backend/services/alert_service.py, `AlertService`) -/

/-- The `Alert` entity (backend/domain/entities.py). -/
structure Alert where
  type : String := "price_drop"
  symbol : String
  price : ℚ
  change_percent : ℚ
  timestamp : ℚ
  message : String
deriving DecidableEq, Repr

/-- `AlertService` state: the configured threshold (exposed by the
`threshold` property over `self._threshold`) and the callback set. -/
structure AlertService where
  threshold : ℚ := -5
  callbacks : Finset ℕ := ∅
deriving DecidableEq

/-- `AlertService.register_callback`: `self._callbacks.add(callback)`. -/
def AlertService.register_callback (svc : AlertService) (c : ℕ) : AlertService :=
  { svc with callbacks := insert c svc.callbacks }

/-- `AlertService.unregister_callback`: `self._callbacks.discard(callback)`. -/
def AlertService.unregister_callback (svc : AlertService) (c : ℕ) : AlertService :=
  { svc with callbacks := svc.callbacks.erase c }

/-- `AlertService.check_alert_condition(symbol, price, change_percent)`:
`change_percent <= self._threshold` (symbol and price are unused). -/
def AlertService.check_alert_condition (svc : AlertService)
    (symbol : String) (price : ℚ) (change_percent : ℚ) : Bool :=
  decide (change_percent ≤ svc.threshold)

/-- `AlertService.create_alert`: pure construction of the Alert entity. -/
def AlertService.create_alert (svc : AlertService)
    (symbol : String) (price : ℚ) (change_percent : ℚ) (timestamp : ℚ) : Alert :=
  { type := "price_drop", symbol := symbol, price := price,
    change_percent := change_percent, timestamp := timestamp,
    message := "Alert: " ++ symbol ++ " dropped " ++ formatFixed2 change_percent ++ "%" }

/-! ## Ingestion Queue (backend/main.py) -/

/-- An `asyncio.Queue` with a capacity bound: `maxsize` and the items
currently queued (FIFO, head = oldest). -/
structure AsyncQueue (α : Type) where
  maxsize : ℕ
  items : List α
deriving DecidableEq

/-- `Queue.put_nowait(item)`: raises `QueueFull` (modelled as `.error`)
when `maxsize > 0` and the queue already holds `maxsize` items;
otherwise appends the item.  Never suspends. -/
def AsyncQueue.put_nowait {α : Type} (q : AsyncQueue α) (a : α) :
    Except Unit (AsyncQueue α) :=
  if 0 < q.maxsize ∧ q.maxsize ≤ q.items.length then .error ()
  else .ok { q with items := q.items ++ [a] }

/-- The offer step of `yahoo_websocket_handler` (backend/main.py):
`try: message_queue.put_nowait(decoded) except QueueFull: log "Queue
full, dropping message"`.  Returns the resulting queue and whether the
drop log event was emitted. -/
def offerTick {α : Type} (q : AsyncQueue α) (a : α) : AsyncQueue α × Bool :=
  match q.put_nowait a with
  | .ok q2 => (q2, false)
  | .error _ => (q, true)

/-- The module-level ingestion queue of backend/main.py:
`asyncio.Queue(maxsize=10000)`, initially empty. -/
def message_queue : AsyncQueue Message := ⟨10000, []⟩

/-! ## Wire Decoder (yahoo_websocket_client.py, `decode_message`) -/

/-- The protobuf `PricingData` message restricted to the fields the
pipeline consumes (proto3 scalars, each with its default value; the
volume field is the wire schema's day-volume). -/
structure PricingData where
  id : String := ""
  price : ℚ := 0
  time : ℤ := 0
  change_percent : ℚ := 0
  day_volume : ℤ := 0
deriving DecidableEq, Repr

/-- `MessageToDict(pricing_data, preserving_proto_field_name=True)`:
per the documented proto3 JSON mapping, a scalar field appears in the
dict only when it differs from its default value (the source's own
sample dict, e.g., carries no volume key). -/
def messageToDict (m : PricingData) : List (String × PyVal) :=
  (if m.id ≠ "" then [("id", PyVal.str m.id)] else []) ++
  (if m.price ≠ 0 then [("price", PyVal.num m.price)] else []) ++
  (if m.time ≠ 0 then [("time", PyVal.str (toString m.time))] else []) ++
  (if m.change_percent ≠ 0 then [("change_percent", PyVal.num m.change_percent)] else []) ++
  (if m.day_volume ≠ 0 then [("day_volume", PyVal.int m.day_volume)] else [])

/-- `decode_message(base64_message)`: the whole body runs under
`try/except Exception: return None`.  The `base64.b64decode` +
`PricingData().ParseFromString` stage is the parameter `parse` (`none`
models any exception raised there); a successful parse is rendered by
`MessageToDict`.  The function is total: it never propagates an
exception. -/
def decode_message (parse : String → Option PricingData) (s : String) :
    Option (List (String × PyVal)) :=
  (parse s).map messageToDict

/-- The base64+protobuf stage evaluated on the empty frame, per the
libraries' documented semantics: `base64.b64decode("")` is `b""`, and
`ParseFromString(b"")` succeeds, yielding the all-defaults message.
Every other frame is abstracted as undecodable. -/
def emptyFrameParse : String → Option PricingData :=
  fun s => if s = "" then some {} else none

/-! ## Concrete fixtures -/

/-- A callback environment in which every callback returns normally. -/
def env0 : CallbackEnv := fun _ _ => .ok ()

/-- A callback environment in which callback 0 raises and all others
return normally. -/
def envBoom : CallbackEnv := fun c _ => if c = 0 then .error "boom" else .ok ()

/-- First tick of the §8 scenario: `{AAPL, changePercent: -1.0}`. -/
def m1 : Message := [("id", .str "AAPL"), ("change_percent", .num (-1))]

/-- Second tick of the §8 scenario: `{AAPL, changePercent: -6.2}`. -/
def m2 : Message := [("id", .str "AAPL"), ("change_percent", .num ((-31 : ℚ) / 5))]

/-- A message whose price field is a non-numeric string: `float("abc")`
raises during `_process_message`. -/
def msgBad : Message := [("price", .str "abc")]

/-- A concrete batch record. -/
def rec0 : Record := ⟨0, .str "AAPL", 100, 10, -1⟩

/-- A processor holding one pending record. -/
def spFail : StreamProcessor := { batch := [rec0] }

/-- A processor with two registered callbacks. -/
def spCB : StreamProcessor := { alert_callbacks := {0, 1} }

/-- A concrete alert value. -/
def aDemo : AlertData := ⟨"price_drop", .str "AAPL", 100, -6, 0, "x"⟩

/-- The default-configured alert service (threshold −5.0). -/
def svcDef : AlertService := {}

/-- An initial loop state: default processor, flush timer at 0. -/
def st0 : LoopState := ⟨{}, 0⟩

/-- A fully-populated sample frame (no default-valued fields). -/
def samplePricing : PricingData :=
  { id := "NVDA", price := 179, time := 1765438790000, change_percent := -2, day_volume := 5 }

/-- A frame whose day-volume is at its default (0): the decoded dict
omits the volume key. -/
def zeroVolumePricing : PricingData :=
  { id := "NVDA", price := 179, time := 1765438790000, change_percent := -2, day_volume := 0 }

/-- A parse stage that decodes the single frame "f0" to the
zero-volume message. -/
def zeroVolumeParse : String → Option PricingData :=
  fun s => if s = "f0" then some zeroVolumePricing else none

/-! ## C1: storage failure on flush -/

/-- C1 counterexample: the claim says a failed batch-insert clears
(discards) the batch.  On a processor holding one record and a storage
collaborator whose insert raises, `_flush_batch` logs the failure but
leaves the batch exactly as it was — it is kept for retry (the source's
own comment), not discarded. -/
theorem flushBatch_failure_not_cleared :
    (flushBatch (fun _ => false) spFail).1.batch = [rec0] ∧
    (flushBatch (fun _ => false) spFail).2 = .failed "insert error" ∧
    [rec0] ≠ ([] : List Record) := by
  refine ⟨rfl, rfl, by decide⟩

/-- C1 (amended): on a flush whose storage insert raises, the failure is
logged (`FlushResult.failed`) and the batch is kept unchanged for retry;
a successful insert clears the batch; an empty batch is a no-op. -/
theorem flushBatch_failure_logged_batch_kept :
    ∀ (insertOk : List Record → Bool) (sp : StreamProcessor),
      (sp.batch.isEmpty = false → insertOk sp.batch = false →
        (flushBatch insertOk sp).1 = sp ∧
        (flushBatch insertOk sp).2 = .failed "insert error") ∧
      (sp.batch.isEmpty = false → insertOk sp.batch = true →
        (flushBatch insertOk sp).1.batch = [] ∧
        (flushBatch insertOk sp).2 = .flushed sp.batch) ∧
      (sp.batch.isEmpty = true → flushBatch insertOk sp = (sp, .noop)) := by
  intro insertOk sp
  refine ⟨fun h1 h2 => ?_, fun h1 h2 => ?_, fun h1 => ?_⟩
  · simp [flushBatch, h1, h2]
  · simp [flushBatch, h1, h2]
  · simp [flushBatch, h1]

/-- C1 witness: the amended theorem applied at a concrete failing and a
concrete succeeding insert. -/
theorem flushBatch_failure_logged_batch_kept_witness :
    ((flushBatch (fun _ => false) spFail).1 = spFail ∧
      (flushBatch (fun _ => false) spFail).2 = .failed "insert error") ∧
    ((flushBatch (fun _ => true) spFail).1.batch = [] ∧
      (flushBatch (fun _ => true) spFail).2 = .flushed spFail.batch) :=
  ⟨(flushBatch_failure_logged_batch_kept (fun _ => false) spFail).1 rfl rfl,
    (flushBatch_failure_logged_batch_kept (fun _ => true) spFail).2.1 rfl rfl⟩

/-! ## C2: the batch never exceeds its maximum size -/

/-- `_process_message` never changes the configured batch size. -/
theorem processMessage_batch_size (env : CallbackEnv) (now_ms : ℤ)
    (sp : StreamProcessor) (msg : Message) :
    (processMessage env now_ms sp msg).sp.batch_size = sp.batch_size := by
  unfold processMessage
  cases parseRecord now_ms msg with
  | error e => rfl
  | ok r =>
    dsimp only
    split <;> rfl

/-- `_process_message` appends at most one record to the batch. -/
theorem processMessage_batch_length (env : CallbackEnv) (now_ms : ℤ)
    (sp : StreamProcessor) (msg : Message) :
    (processMessage env now_ms sp msg).sp.batch.length ≤ sp.batch.length + 1 := by
  unfold processMessage
  cases parseRecord now_ms msg with
  | error e => exact Nat.le_succ _
  | ok r =>
    dsimp only
    split <;> simp

/-- `procEvent` never changes the configured batch size. -/
theorem procEvent_batch_size (env : CallbackEnv) (now_ms : ℤ)
    (sp : StreamProcessor) (ev : Option Message) :
    (procEvent env now_ms sp ev).sp.batch_size = sp.batch_size := by
  cases ev with
  | some m => exact processMessage_batch_size env now_ms sp m
  | none => rfl

/-- `procEvent` appends at most one record to the batch. -/
theorem procEvent_batch_length (env : CallbackEnv) (now_ms : ℤ)
    (sp : StreamProcessor) (ev : Option Message) :
    (procEvent env now_ms sp ev).sp.batch.length ≤ sp.batch.length + 1 := by
  cases ev with
  | some m => exact processMessage_batch_length env now_ms sp m
  | none => exact Nat.le_succ _

/-- `runStep` in zeta-reduced form, for case analysis. -/
theorem runStep_eq (insertOk : List Record → Bool) (env : CallbackEnv) (now_ms : ℤ)
    (st : LoopState) (ev : Option Message) (t : ℚ) :
    runStep insertOk env now_ms st ev t =
      if (procEvent env now_ms st.sp ev).sp.batch_size ≤
            (procEvent env now_ms st.sp ev).sp.batch.length ∨
          (procEvent env now_ms st.sp ev).sp.batch_timeout ≤ t - st.last_flush then
        (⟨(flushBatch insertOk (procEvent env now_ms st.sp ev).sp).1, t⟩,
          some (flushBatch insertOk (procEvent env now_ms st.sp ev).sp).2,
          (procEvent env now_ms st.sp ev).alerts)
      else
        (⟨(procEvent env now_ms st.sp ev).sp, st.last_flush⟩, none,
          (procEvent env now_ms st.sp ev).alerts) := rfl

/-- A successful flush leaves the batch empty; under an always-succeeding
storage collaborator the batch after `_flush_batch` is empty. -/
theorem flushBatch_ok_empty (insertOk : List Record → Bool) (sp : StreamProcessor)
    (hok : ∀ rs, insertOk rs = true) :
    (flushBatch insertOk sp).1.batch = [] := by
  by_cases h : sp.batch.isEmpty
  · simp [flushBatch, h]
    exact List.isEmpty_iff.1 h
  · simp [flushBatch, h, hok sp.batch]

/-- `flushBatch` preserves the configured batch size. -/
theorem flushBatch_batch_size (insertOk : List Record → Bool) (sp : StreamProcessor) :
    (flushBatch insertOk sp).1.batch_size = sp.batch_size := by
  unfold flushBatch
  split
  · rfl
  · split <;> rfl

/-- One `run` iteration preserves the size invariant when the storage
collaborator succeeds. -/
theorem runStep_inv (insertOk : List Record → Bool) (env : CallbackEnv) (now_ms : ℤ)
    (st : LoopState) (ev : Option Message) (t : ℚ)
    (hok : ∀ rs, insertOk rs = true)
    (h : st.sp.batch.length < st.sp.batch_size) :
    (runStep insertOk env now_ms st ev t).1.sp.batch.length
      < (runStep insertOk env now_ms st ev t).1.sp.batch_size := by
  rw [runStep_eq]
  by_cases hcond : (procEvent env now_ms st.sp ev).sp.batch_size ≤
        (procEvent env now_ms st.sp ev).sp.batch.length ∨
      (procEvent env now_ms st.sp ev).sp.batch_timeout ≤ t - st.last_flush
  · simp only [hcond, if_pos]
    rw [flushBatch_ok_empty insertOk _ hok, flushBatch_batch_size,
      procEvent_batch_size]
    simpa using Nat.lt_of_le_of_lt (Nat.zero_le _) h
  · simp only [hcond, if_neg, not_false_iff]
    push_neg at hcond
    exact hcond.1

/-- C2: (i) whenever an iteration of the `run` loop ends without a flush
being issued, the batch is strictly below `batch_size` — equivalently,
as soon as the batch reaches `batch_size` a flush is issued in that same
iteration, before any further tick is appended; and (ii) under a storage
collaborator whose batch-insert succeeds, a run of the loop from a state
whose batch is below `batch_size` never leaves a batch of `batch_size`
or more records. -/
theorem runLoop_batch_never_exceeds_batch_size :
    ∀ (insertOk : List Record → Bool) (env : CallbackEnv) (now_ms : ℤ),
      (∀ (st : LoopState) (ev : Option Message) (t : ℚ),
        (runStep insertOk env now_ms st ev t).2.1 = none →
        (runStep insertOk env now_ms st ev t).1.sp.batch.length
          < (runStep insertOk env now_ms st ev t).1.sp.batch_size) ∧
      ((∀ rs, insertOk rs = true) →
        ∀ (st : LoopState) (evs : List (Option Message × ℚ)),
          st.sp.batch.length < st.sp.batch_size →
          (runLoop insertOk env now_ms st evs).sp.batch.length
            < (runLoop insertOk env now_ms st evs).sp.batch_size) := by
  intro insertOk env now_ms
  constructor
  · intro st ev t hnone
    rw [runStep_eq] at hnone ⊢
    by_cases hcond : (procEvent env now_ms st.sp ev).sp.batch_size ≤
          (procEvent env now_ms st.sp ev).sp.batch.length ∨
        (procEvent env now_ms st.sp ev).sp.batch_timeout ≤ t - st.last_flush
    · simp [hcond] at hnone
    · simp only [hcond, if_neg, not_false_iff]
      push_neg at hcond
      exact hcond.1
  · intro hok st evs
    induction evs generalizing st with
    | nil => intro h; exact h
    | cons e rest ih =>
      intro h
      obtain ⟨ev, t⟩ := e
      exact ih _ (runStep_inv insertOk env now_ms st ev t hok h)

/-- C2 witness: the loop applied to the default processor and a
one-message schedule, with an always-succeeding storage collaborator. -/
theorem runLoop_batch_never_exceeds_batch_size_witness :
    (runLoop (fun _ => true) env0 0 st0 [(some m1, 0)]).sp.batch.length
      < (runLoop (fun _ => true) env0 0 st0 [(some m1, 0)]).sp.batch_size :=
  (runLoop_batch_never_exceeds_batch_size (fun _ => true) env0 0).2
    (fun _ => rfl) st0 [(some m1, 0)] (by decide)

/-! ## C3: stop() -/

/-- C3 counterexample: the claim says `stop()` leaves the batch empty
afterward.  With a pending record and a storage collaborator whose
insert raises, `stop()` clears the run flag and issues its one flush,
but the flush fails and the batch is left non-empty. -/
theorem stop_failed_insert_batch_not_empty :
    (spFail.stop (fun _ => false)).1.batch = [rec0] ∧
    [rec0] ≠ ([] : List Record) ∧
    (spFail.stop (fun _ => false)).1.is_running = false := by
  refine ⟨rfl, by decide, rfl⟩

/-- C3 (amended): `stop()` clears the run flag and issues exactly one
storage insert attempt for a non-empty pending batch (none for an empty
one); the batch is empty afterward provided the storage insert succeeds
(on failure it is retained, as in C1). -/
theorem stop_clears_flag_single_flush :
    ∀ (insertOk : List Record → Bool) (sp : StreamProcessor),
      ((sp.stop insertOk).1.is_running = false) ∧
      (sp.batch.isEmpty = false → (sp.stop insertOk).2.attempts = 1) ∧
      (sp.batch.isEmpty = true →
        (sp.stop insertOk).2.attempts = 0 ∧ (sp.stop insertOk).1.batch = []) ∧
      (insertOk sp.batch = true → (sp.stop insertOk).1.batch = []) := by
  intro insertOk sp
  refine ⟨?_, fun h1 => ?_, fun h1 => ?_, fun h1 => ?_⟩
  · unfold StreamProcessor.stop flushBatch
    split
    · rfl
    · split <;> rfl
  · unfold StreamProcessor.stop flushBatch
    split
    · rename_i hemp
      rw [show ({ sp with is_running := false } : StreamProcessor).batch.isEmpty
          = sp.batch.isEmpty from rfl, h1] at hemp
      exact Bool.noConfusion hemp
    · split <;> rfl
  · unfold StreamProcessor.stop flushBatch
    have hb : sp.batch = [] := List.isEmpty_iff.1 h1
    simp [hb, FlushResult.attempts]
  · by_cases hemp : sp.batch.isEmpty
    · have hb := List.isEmpty_iff.1 hemp
      simp [StreamProcessor.stop, flushBatch, hb]
    · simp [StreamProcessor.stop, flushBatch, hemp, h1]

/-- C3 witness: `stop()` on a processor with one pending record and a
succeeding storage collaborator. -/
theorem stop_clears_flag_single_flush_witness :
    (spFail.stop (fun _ => true)).1.is_running = false ∧
    (spFail.stop (fun _ => true)).2.attempts = 1 ∧
    (spFail.stop (fun _ => true)).1.batch = [] :=
  ⟨(stop_clears_flag_single_flush (fun _ => true) spFail).1,
    (stop_clears_flag_single_flush (fun _ => true) spFail).2.1 rfl,
    (stop_clears_flag_single_flush (fun _ => true) spFail).2.2.2 rfl⟩

/-! ## C4: inclusive alert threshold -/

/-- C4: `check_alert_condition` returns true iff
`change_percent <= threshold`; in particular the boundary value
`change_percent == threshold` alerts (the comparison is inclusive). -/
theorem check_alert_condition_iff_le_threshold :
    ∀ (svc : AlertService) (symbol : String) (price change_percent : ℚ),
      (svc.check_alert_condition symbol price change_percent = true ↔
        change_percent ≤ svc.threshold) ∧
      svc.check_alert_condition symbol price svc.threshold = true := by
  intro svc symbol price change_percent
  constructor
  · simp [AlertService.check_alert_condition]
  · simp [AlertService.check_alert_condition]

/-- C4 witness: the boundary value at the default threshold −5.0. -/
theorem check_alert_condition_iff_le_threshold_witness :
    svcDef.check_alert_condition "AAPL" 100 svcDef.threshold = true ∧
    (svcDef.check_alert_condition "AAPL" 100 (-6) = true ↔ (-6 : ℚ) ≤ svcDef.threshold) :=
  ⟨(check_alert_condition_iff_le_threshold svcDef "AAPL" 100 0).2,
    (check_alert_condition_iff_le_threshold svcDef "AAPL" 100 (-6)).1⟩

/-! ## C7: the two-tick scenario -/

set_option maxRecDepth 100000 in
/-- C7: with the default threshold −5.0, processing
`[{AAPL, changePercent: -1.0}, {AAPL, changePercent: -6.2}]` through
`_process_message` generates no alert for the first tick and exactly one
alert for the second, with message "Alert: AAPL dropped -6.20%"; the
`AlertService.create_alert` entity for the same tick carries the same
message. -/
theorem two_tick_scenario_single_alert :
    (processMessage env0 0 ({} : StreamProcessor) m1).alerts = [] ∧
    ((processMessage env0 0 (processMessage env0 0 ({} : StreamProcessor) m1).sp m2).alerts.map
        AlertData.message) = ["Alert: AAPL dropped -6.20%"] ∧
    (svcDef.create_alert "AAPL" 0 ((-31 : ℚ) / 5) 0).message =
      "Alert: AAPL dropped -6.20%" := by
  refine ⟨by with_unfolding_all decide, by with_unfolding_all decide,
    by with_unfolding_all decide⟩

/-! ## C5: the wire decoder -/

/-- C5 counterexample: the claim says every valid (decodable) frame
yields a record with all five fields populated.  The empty frame is
valid — `b64decode("")` is `b""` and `ParseFromString(b"")` succeeds
with the all-defaults message — yet `decode_message` returns a dict with
no fields at all (proto3 `MessageToDict` omits default-valued fields). -/
theorem decode_message_empty_frame_counterexample :
    (emptyFrameParse "").isSome = true ∧
    decode_message emptyFrameParse "" = some [] := by
  exact ⟨rfl, rfl⟩

/-- C5 (amended): `decode_message` never throws — an undecodable frame
yields `none` — and a successfully decoded frame yields the dict of
exactly its non-default fields: every key is one of the five tick
fields, a field equal to its proto3 default (e.g. a zero volume) is
omitted, and a frame with all five fields non-default yields all five
keys. -/
theorem decode_message_total_and_field_presence :
    ∀ (parse : String → Option PricingData) (s : String),
      (parse s = none → decode_message parse s = none) ∧
      (∀ m, parse s = some m →
        decode_message parse s = some (messageToDict m) ∧
        (∀ kv ∈ messageToDict m,
          kv.1 ∈ (["id", "price", "time", "change_percent", "day_volume"] : List String)) ∧
        (("day_volume" ∈ (messageToDict m).map Prod.fst) ↔ m.day_volume ≠ 0) ∧
        ((m.id ≠ "" ∧ m.price ≠ 0 ∧ m.time ≠ 0 ∧ m.change_percent ≠ 0 ∧ m.day_volume ≠ 0) →
          (messageToDict m).map Prod.fst =
            ["id", "price", "time", "change_percent", "day_volume"])) := by
  intro parse s
  constructor
  · intro h
    simp [decode_message, h]
  · intro m hm
    refine ⟨by simp [decode_message, hm], ?_, ?_, ?_⟩
    · intro kv hkv
      unfold messageToDict at hkv
      split_ifs at hkv <;> simp_all <;> aesop
    · unfold messageToDict
      split_ifs <;> simp_all
    · rintro ⟨h1, h2, h3, h4, h5⟩
      simp [messageToDict, h1, h2, h3, h4, h5]

/-- C5 witness: a frame carrying every field except volume (at its
default 0) decodes successfully, but its dict omits the volume key. -/
theorem decode_message_total_and_field_presence_witness :
    decode_message zeroVolumeParse "f0" = some (messageToDict zeroVolumePricing) ∧
    ¬ ("day_volume" ∈ (messageToDict zeroVolumePricing).map Prod.fst) :=
  ⟨((decode_message_total_and_field_presence zeroVolumeParse "f0").2
      zeroVolumePricing rfl).1,
    fun hm =>
      (((decode_message_total_and_field_presence zeroVolumeParse "f0").2
          zeroVolumePricing rfl).2.2.1.mp hm) rfl⟩

/-! ## C6: the Ingestion Queue offer -/

/-- C6: the offer path of `yahoo_websocket_handler` on the bounded
`message_queue` (capacity 10,000): `put_nowait` never suspends
(modelled as a total function); the queue never exceeds its capacity;
when the queue is full the newly offered tick is rejected, the contents
are unchanged, and the drop is logged; otherwise the tick is appended
and nothing is dropped. -/
theorem offer_nonblocking_bounded_drops_newest :
    message_queue.maxsize = 10000 ∧
    ∀ (q : AsyncQueue Message) (a : Message), q.maxsize = 10000 →
      (q.items.length ≤ 10000 → (offerTick q a).1.items.length ≤ 10000) ∧
      (q.items.length = 10000 → (offerTick q a).1 = q ∧ (offerTick q a).2 = true) ∧
      (q.items.length < 10000 →
        (offerTick q a).1.items = q.items ++ [a] ∧ (offerTick q a).2 = false) := by
  refine ⟨rfl, ?_⟩
  intro q a hq
  by_cases hfull : 0 < q.maxsize ∧ q.maxsize ≤ q.items.length
  · have h1 : (offerTick q a).1 = q := by
      simp [offerTick, AsyncQueue.put_nowait, hfull]
    have h2 : (offerTick q a).2 = true := by
      simp [offerTick, AsyncQueue.put_nowait, hfull]
    refine ⟨fun hle => ?_, fun _ => ⟨h1, h2⟩, fun hlt => ?_⟩
    · rw [h1]; exact hle
    · exact absurd (hq ▸ hfull.2) (Nat.not_le_of_lt hlt)
  · have h1 : (offerTick q a).1.items = q.items ++ [a] := by
      simp [offerTick, AsyncQueue.put_nowait, hfull]
    have h2 : (offerTick q a).2 = false := by
      simp [offerTick, AsyncQueue.put_nowait, hfull]
    refine ⟨fun hle => ?_, fun heq => ?_, fun _ => ⟨h1, h2⟩⟩
    · rw [h1]
      simp only [List.length_append, List.length_cons, List.length_nil]
      have : ¬ q.maxsize ≤ q.items.length := by
        intro hc
        exact hfull ⟨by omega, hc⟩
      omega
    · exact absurd ⟨by omega, by omega⟩ hfull

/-- C6 witness: offering a tick to the (empty) module-level queue
appends it without any drop, staying within capacity. -/
theorem offer_nonblocking_bounded_drops_newest_witness :
    (offerTick message_queue m1).1.items = message_queue.items ++ [m1] ∧
    (offerTick message_queue m1).2 = false ∧
    (offerTick message_queue m1).1.items.length ≤ 10000 :=
  ⟨((offer_nonblocking_bounded_drops_newest.2 message_queue m1 rfl).2.2 (by decide)).1,
    ((offer_nonblocking_bounded_drops_newest.2 message_queue m1 rfl).2.2 (by decide)).2,
    (offer_nonblocking_bounded_drops_newest.2 message_queue m1 rfl).1 (by decide)⟩

/-! ## C8: per-callback exception isolation -/

/-- Every callback in the iterated list appears in the invocation
trace, in order. -/
theorem triggerAlertList_map_fst (env : CallbackEnv) (a : AlertData) :
    ∀ l : List ℕ, (triggerAlertList env a l).map Prod.fst = l := by
  intro l
  induction l with
  | nil => rfl
  | cons c rest ih => simp [triggerAlertList, ih]

/-- A callback in the iterated list is invoked and its outcome recorded. -/
theorem triggerAlertList_mem (env : CallbackEnv) (a : AlertData) :
    ∀ (l : List ℕ) (c : ℕ), c ∈ l → (c, env c a) ∈ triggerAlertList env a l := by
  intro l
  induction l with
  | nil => intro c hc; cases hc
  | cons d rest ih =>
    intro c hc
    rcases List.mem_cons.1 hc with h | h
    · subst h; exact List.mem_cons_self _ _
    · exact List.mem_cons_of_mem _ (ih c h)

/-- C8: dispatching an alert invokes every registered callback — the
invocation trace covers exactly the callback set, and each registered
callback's own invocation (with its own outcome, exception or not)
appears in the trace — so one callback raising cannot prevent another
from being invoked, and no exception escapes `_trigger_alert`. -/
theorem trigger_alert_invokes_every_callback :
    ∀ (sp : StreamProcessor) (env : CallbackEnv) (a : AlertData),
      ((sp.trigger_alert env a).map Prod.fst = sp.alert_callbacks.sort (· ≤ ·)) ∧
      (∀ c ∈ sp.alert_callbacks, (c, env c a) ∈ sp.trigger_alert env a) := by
  intro sp env a
  constructor
  · exact triggerAlertList_map_fst env a _
  · intro c hc
    exact triggerAlertList_mem env a _ c ((Finset.mem_sort _).2 hc)

/-- C8 witness: with callbacks `{0, 1}` where callback 0 raises, both
callbacks are invoked — callback 1 runs despite callback 0's exception,
which is recorded rather than propagated. -/
theorem trigger_alert_invokes_every_callback_witness :
    (((0 : ℕ), (Except.error "boom" : Except String Unit)) ∈
      spCB.trigger_alert envBoom aDemo) ∧
    (((1 : ℕ), (Except.ok () : Except String Unit)) ∈
      spCB.trigger_alert envBoom aDemo) :=
  ⟨(trigger_alert_invokes_every_callback spCB envBoom aDemo).2 0 (by decide),
    (trigger_alert_invokes_every_callback spCB envBoom aDemo).2 1 (by decide)⟩

/-! ## C9: callback registration set semantics -/

/-- C9: callback registration has set semantics on both the processor
and the alert service: registering the same callback twice equals
registering it once, and unregistering an absent callback is a no-op
(and raises no error, being total). -/
theorem callback_registration_set_semantics :
    ∀ (sp : StreamProcessor) (svc : AlertService) (c : ℕ),
      ((sp.register_alert_callback c).register_alert_callback c =
        sp.register_alert_callback c) ∧
      (c ∉ sp.alert_callbacks → sp.unregister_alert_callback c = sp) ∧
      ((svc.register_callback c).register_callback c = svc.register_callback c) ∧
      (c ∉ svc.callbacks → svc.unregister_callback c = svc) := by
  intro sp svc c
  refine ⟨?_, fun h => ?_, ?_, fun h => ?_⟩
  · simp [StreamProcessor.register_alert_callback, Finset.insert_idem]
  · simp [StreamProcessor.unregister_alert_callback, Finset.erase_eq_of_not_mem h]
  · simp [AlertService.register_callback, Finset.insert_idem]
  · simp [AlertService.unregister_callback, Finset.erase_eq_of_not_mem h]

/-- C9 witness: double registration and removal of an unregistered
callback on concrete default states. -/
theorem callback_registration_set_semantics_witness :
    ((({} : StreamProcessor).register_alert_callback 5).register_alert_callback 5 =
      ({} : StreamProcessor).register_alert_callback 5) ∧
    (({} : StreamProcessor).unregister_alert_callback 5 = ({} : StreamProcessor)) ∧
    (svcDef.unregister_callback 7 = svcDef) :=
  ⟨(callback_registration_set_semantics {} svcDef 5).1,
    (callback_registration_set_semantics {} svcDef 5).2.1 (by decide),
    (callback_registration_set_semantics {} svcDef 7).2.2.2 (by decide)⟩

/-! ## C10: malformed messages leave the state unchanged -/

/-- C10: if any field conversion of `_process_message` raises (for
example a non-numeric price string), the exception is caught and
logged, and the processor state — batch, callback set, everything — is
exactly as before the call, with no alert generated and no callback
invoked. -/
theorem malformed_message_leaves_state_unchanged :
    ∀ (env : CallbackEnv) (now_ms : ℤ) (sp : StreamProcessor) (msg : Message),
      (∀ e, parseRecord now_ms msg = .error e →
        processMessage env now_ms sp msg = ⟨sp, [], []⟩) ∧
      (∀ s, msg.get "price" (.num 0) = .str s → parseDecimal s = none →
        processMessage env now_ms sp msg = ⟨sp, [], []⟩) := by
  intro env now_ms sp msg
  constructor
  · intro e h
    simp [processMessage, h]
  · intro s hs hp
    have herr : ∃ e, parseRecord now_ms msg = .error e := by
      unfold parseRecord
      rw [hs]
      simp only [pyFloat, hp]
      exact ⟨"could not convert string to float: " ++ s, rfl⟩
    obtain ⟨e, he⟩ := herr
    simp [processMessage, he]

/-- C10 witness: a message whose price is the non-numeric string "abc",
processed against a processor with a non-empty batch and registered
callbacks, leaves the state exactly unchanged with no alerts and no
callback invocations. -/
theorem malformed_message_leaves_state_unchanged_witness :
    processMessage envBoom 0 spFail msgBad = ⟨spFail, [], []⟩ :=
  (malformed_message_leaves_state_unchanged envBoom 0 spFail msgBad).2
    "abc" rfl rfl
